import Mathlib

/-!
# Relay (src/relay/relay.go)

A shallow embedding of the `relay` package: the `Relay` value, its constructor
`New`, the session registry update `SetContainerSession` and the four lifecycle
methods that delegate to a `ContainerRunner`.

Go values are embedded as follows.

* `string` is `String`: relay.go compares strings for equality and joins them,
  nothing else.
* `error` is `Option GoError` (`none` is `nil`).
* `*Container` is `ContainerPtr`: `none` is `nil`, `some a` the address of a
  `Container` in the store.
* `map[string]*Container` is `SessionMap`: `none` is the nil map, which reads as
  empty and panics on assignment; `some m` is an allocated map, `m k = none`
  meaning that the key `k` is absent.
* Everything a runner can read or write (the containers behind the pointers and
  the engine it talks to) is the `Store`; a method of the runner is a function
  from its arguments and the store to its results and the next store.
* The `World` is the store plus the list of calls made to code outside
  `relay.go`, in the order they were made.
* The embedded `sync.Mutex` is the field `locked`; `Lock` and `Unlock` are run by
  one caller on its own, so a call that would wait has no result (`none`).
* `runner.go` is not part of the sources: the fake runner, `NewDockerRunner` and
  `uuid.New` are parameters (`Externals`), and the lifecycle theorems hold for
  every `ContainerRunner`.
-/

namespace Empire

/-! ## Data model -/

/-- Go `error` values other than `nil`, identified by their message. -/
structure GoError where
  msg : String
deriving DecidableEq, Repr

/-- The `Container` struct (relay.go, lines 49-57). `Env` is the list of entries of the map. -/
structure Container where
  Image : String
  Name : String
  Command : String
  State : String
  Env : List (String × String)
  Attach : Bool
  AttachURL : String
deriving DecidableEq, Repr

/-- A `*Container`: `none` is `nil`, `some a` an address in the store. -/
abbrev ContainerPtr := Option Nat

/-- A `*docker.AuthConfigurations`: `none` is `nil`, `some a` an address. -/
abbrev AuthPtr := Option Nat

/-- An `io.Reader` handle. -/
structure Reader where
  handle : Nat
deriving DecidableEq, Repr

/-- An `io.Writer` handle. -/
structure Writer where
  handle : Nat
deriving DecidableEq, Repr

/-- The state a `context.Context` is in when a method receives it. -/
inductive Context where
  | background
  | canceled
  | deadlineExceeded
deriving DecidableEq, Repr

/-- The method `Err` of a context: `nil` while the context is live, otherwise the reason. -/
def Context.Err : Context → Option GoError
  | .background => none
  | .canceled => some ⟨"context canceled"⟩
  | .deadlineExceeded => some ⟨"context deadline exceeded"⟩

/-- What the runner sees and may change: the containers behind the pointers and
its own engine state `σ`. -/
structure Store (σ : Type) where
  containers : Nat → Option Container
  engine : σ

/-- The `ContainerRunner` interface, as used by relay.go: the five methods called
on `r.runner` (lines 104, 107, 111, 115, 119). -/
structure ContainerRunner (σ : Type) where
  Pull : ContainerPtr → Store σ → Option GoError × Store σ
  Create : ContainerPtr → Store σ → Option GoError × Store σ
  Attach : String → Reader → Writer → Store σ → Option GoError × Store σ
  Start : String → Store σ → Option GoError × Store σ
  Wait : String → Store σ → (Int × Option GoError) × Store σ

/-- A call that leaves relay.go. -/
inductive Call where
  | NewDockerRunner (socket certPath : String) (auth : AuthPtr)
  | Pull (c : ContainerPtr)
  | Create (c : ContainerPtr)
  | Attach (name : String) (input : Reader) (output : Writer)
  | Start (name : String)
  | Wait (name : String)
deriving DecidableEq, Repr

/-- The store together with the calls made so far, oldest first. -/
structure World (σ : Type) where
  store : Store σ
  trace : List Call

/-- A `func() string` value. -/
abbrev SessionGenerator (σ : Type) := Store σ → String × Store σ

/-- The struct `DockerOptions` (lines 23-35). -/
structure DockerOptions where
  Organization : String
  Socket : String
  CertPath : String
  Auth : AuthPtr
deriving DecidableEq, Repr

/-- The struct `TcpOptions` (lines 37-40). -/
structure TcpOptions where
  Host : String
  Port : String
deriving DecidableEq, Repr

/-- The struct `Options` (lines 42-46); `none` is a `nil` generator. -/
structure Options (σ : Type) where
  SessionGenerator : Option (SessionGenerator σ)
  Tcp : TcpOptions
  Docker : DockerOptions

/-- A `map[string]*Container`: `none` is the nil map (the zero value of the type),
`some m` an allocated map in which `m k = none` says that `k` is absent. -/
abbrev SessionMap := Option (String → Option ContainerPtr)

/-- The struct `Relay` (lines 59-69). `locked` is the embedded `sync.Mutex`
(`false`, the zero value, is unlocked). -/
structure Relay (σ : Type) where
  locked : Bool
  Host : String
  runner : ContainerRunner σ
  GenSessionID : SessionGenerator σ
  sessions : SessionMap

/-- What relay.go uses and does not define: `uuid.New` behind
`DefaultSessionGenerator`, the value `&fakeRunner{}` and the function
`NewDockerRunner`. -/
structure Externals (σ : Type) where
  DefaultSessionGenerator : SessionGenerator σ
  fakeRunner : ContainerRunner σ
  NewDockerRunner : String → String → AuthPtr → Store σ →
    Except GoError (ContainerRunner σ) × Store σ

/-- How a Go call ends: it returns a value or it panics with one. -/
inductive Outcome (α : Type) where
  | returned (a : α)
  | panicked (e : GoError)

/-! ## Calls that leave relay.go -/

/-- Append one call to the trace. -/
def World.record {σ : Type} (w : World σ) (s : Store σ) (c : Call) : World σ :=
  { store := s, trace := w.trace ++ [c] }

/-- The call `r.runner.Pull(c)`. -/
def callPull {σ : Type} (rn : ContainerRunner σ) (c : ContainerPtr) (w : World σ) :
    Option GoError × World σ :=
  ((rn.Pull c w.store).1, w.record (rn.Pull c w.store).2 (Call.Pull c))

/-- The call `r.runner.Create(c)`. -/
def callCreate {σ : Type} (rn : ContainerRunner σ) (c : ContainerPtr) (w : World σ) :
    Option GoError × World σ :=
  ((rn.Create c w.store).1, w.record (rn.Create c w.store).2 (Call.Create c))

/-- The call `r.runner.Attach(name, in, out)`. -/
def callAttach {σ : Type} (rn : ContainerRunner σ) (name : String) (input : Reader)
    (output : Writer) (w : World σ) : Option GoError × World σ :=
  ((rn.Attach name input output w.store).1,
    w.record (rn.Attach name input output w.store).2 (Call.Attach name input output))

/-- The call `r.runner.Start(name)`. -/
def callStart {σ : Type} (rn : ContainerRunner σ) (name : String) (w : World σ) :
    Option GoError × World σ :=
  ((rn.Start name w.store).1, w.record (rn.Start name w.store).2 (Call.Start name))

/-- The call `r.runner.Wait(name)`. -/
def callWait {σ : Type} (rn : ContainerRunner σ) (name : String) (w : World σ) :
    (Int × Option GoError) × World σ :=
  ((rn.Wait name w.store).1, w.record (rn.Wait name w.store).2 (Call.Wait name))

/-- The call `NewDockerRunner(socket, certPath, auth)`. -/
def callNewDockerRunner {σ : Type} (ext : Externals σ) (socket certPath : String)
    (auth : AuthPtr) (w : World σ) : Except GoError (ContainerRunner σ) × World σ :=
  ((ext.NewDockerRunner socket certPath auth w.store).1,
    w.record (ext.NewDockerRunner socket certPath auth w.store).2
      (Call.NewDockerRunner socket certPath auth))

/-! ## The lifecycle methods (lines 103-120) -/

/-- The method `CreateContainer` (lines 103-108). -/
def CreateContainer {σ : Type} (r : Relay σ) (_ctx : Context) (c : ContainerPtr)
    (w : World σ) : Option GoError × World σ :=
  match callPull r.runner c w with
  | (some err, w1) => (some err, w1)
  | (none, w1) => callCreate r.runner c w1

/-- The method `AttachToContainer` (lines 110-112). -/
def AttachToContainer {σ : Type} (r : Relay σ) (_ctx : Context) (name : String)
    (input : Reader) (output : Writer) (w : World σ) : Option GoError × World σ :=
  callAttach r.runner name input output w

/-- The method `StartContainer` (lines 114-116). -/
def StartContainer {σ : Type} (r : Relay σ) (_ctx : Context) (name : String)
    (w : World σ) : Option GoError × World σ :=
  callStart r.runner name w

/-- The method `WaitContainer` (lines 118-120). -/
def WaitContainer {σ : Type} (r : Relay σ) (_ctx : Context) (name : String)
    (w : World σ) : (Int × Option GoError) × World σ :=
  callWait r.runner name w

/-! ## The constructor (lines 72-95) -/

/-- The function `strings.Join` of the Go standard library: no element gives the
empty string, one element gives that element, otherwise the separator is written
before every element but the first. -/
def Join : List String → String → String
  | [], _ => ""
  | [a], _ => a
  | a :: rest, sep => rest.foldl (fun acc s => acc ++ sep ++ s) a

/-- The function `New` (lines 72-95). -/
def New {σ : Type} (ext : Externals σ) (options : Options σ) (w : World σ) :
    Outcome (Relay σ) × World σ :=
  let sg : SessionGenerator σ :=
    match options.SessionGenerator with
    | none => ext.DefaultSessionGenerator
    | some g => g
  if options.Docker.Socket = "fake" then
    (Outcome.returned
      { locked := false
        Host := Join [options.Tcp.Host, options.Tcp.Port] ":"
        runner := ext.fakeRunner
        GenSessionID := sg
        sessions := some (fun _ => none) }, w)
  else
    match callNewDockerRunner ext options.Docker.Socket options.Docker.CertPath
        options.Docker.Auth w with
    | (Except.error err, w1) => (Outcome.panicked err, w1)
    | (Except.ok runner, w1) =>
      (Outcome.returned
        { locked := false
          Host := Join [options.Tcp.Host, options.Tcp.Port] ":"
          runner := runner
          GenSessionID := sg
          sessions := some (fun _ => none) }, w1)

/-! ## The session registry (lines 97-101) -/

/-- The method `Lock` of the embedded mutex, run by one caller on its own: it
returns once the mutex is free (`none`: the mutex is held, the caller waits). -/
def Relay.Lock {σ : Type} (r : Relay σ) : Option (Relay σ) :=
  if r.locked then none else some { r with locked := true }

/-- The method `Unlock` of the embedded mutex (`none`: the mutex was not held,
a fatal error of the Go runtime). -/
def Relay.Unlock {σ : Type} (r : Relay σ) : Option (Relay σ) :=
  if r.locked then some { r with locked := false } else none

/-- The message of the runtime panic of an assignment to an entry of a nil map. -/
def nilMapPanic : GoError :=
  ⟨"assignment to entry in nil map"⟩

/-- The assignment `r.sessions[id] = c` (line 100): on an allocated map the entry
at `id` is inserted or overwritten; on the nil map the Go runtime panics. -/
def Relay.assign {σ : Type} (r : Relay σ) (id : String) (c : ContainerPtr) :
    Outcome (Relay σ) :=
  match r.sessions with
  | none => Outcome.panicked nilMapPanic
  | some m =>
    Outcome.returned { r with sessions := some (fun k => if k = id then some c else m k) }

/-- The method `SetContainerSession` (lines 97-101): lock, assign, and the
deferred unlock, which runs when the method returns and also when the assignment
panics. The result is how the call ended and the Relay it left (`none`: the call
waits for the mutex). -/
def SetContainerSession {σ : Type} (r : Relay σ) (id : String) (c : ContainerPtr) :
    Option (Outcome Unit × Relay σ) :=
  match r.Lock with
  | none => none
  | some r1 =>
    match r1.assign id c with
    | Outcome.panicked e =>
      match r1.Unlock with
      | none => none
      | some r2 => some (Outcome.panicked e, r2)
    | Outcome.returned r2 =>
      match r2.Unlock with
      | none => none
      | some r3 => some (Outcome.returned (), r3)

/-- What a reader of the registry gets for `r.sessions[id]`: the entry, or `none`
when the key is absent (every key is absent from the nil map). -/
def Relay.lookup {σ : Type} (r : Relay σ) (id : String) : Option ContainerPtr :=
  match r.sessions with
  | none => none
  | some m => m id

/-- A sequence of `SetContainerSession` calls, one after the other, in list order
(`none`: one of the calls did not return). -/
def SetContainerSessions {σ : Type} (r : Relay σ) :
    List (String × ContainerPtr) → Option (Relay σ)
  | [] => some r
  | p :: rest =>
    match SetContainerSession r p.1 p.2 with
    | some (Outcome.returned _, r1) => SetContainerSessions r1 rest
    | _ => none

/-- The Relay with the entry at `id` set to `c`, in a map that is allocated. -/
def Relay.put {σ : Type} (r : Relay σ) (id : String) (c : ContainerPtr) : Relay σ :=
  { r with sessions := some (fun k => if k = id then some c else r.lookup k) }

/-- The assignments of a sequence of calls, without the locking. -/
def assignAll {σ : Type} (r : Relay σ) (qs : List (String × ContainerPtr)) : Relay σ :=
  qs.foldl (fun acc p => acc.put p.1 p.2) r

/-! ## Concrete runners and relays -/

/-- A store with one container, `busybox` under the name `job-1`, at address 1. -/
def demoStore : Store Nat :=
  { containers := fun a =>
      if a = 1 then
        some { Image := "busybox", Name := "job-1", Command := "", State := "",
               Env := [], Attach := false, AttachURL := "" }
      else none
    engine := 0 }

/-- The world before any call. -/
def demoWorld : World Nat :=
  { store := demoStore, trace := [] }

/-- A runner whose every method succeeds and counts the call in the engine; the
container exits with `code`. -/
def countingRunner (code : Int) : ContainerRunner Nat :=
  { Pull := fun _ s => (none, { s with engine := s.engine + 1 })
    Create := fun _ s => (none, { s with engine := s.engine + 1 })
    Attach := fun _ _ _ s => (none, { s with engine := s.engine + 1 })
    Start := fun _ s => (none, { s with engine := s.engine + 1 })
    Wait := fun _ s => ((code, none), { s with engine := s.engine + 1 }) }

/-- A runner like `countingRunner 0` whose `Pull` fails. -/
def pullFailingRunner : ContainerRunner Nat :=
  { countingRunner 0 with
    Pull := fun _ s => (some ⟨"no such image"⟩, { s with engine := s.engine + 1 }) }

/-- A generator that returns the engine counter spelled out. -/
def demoGenerator : SessionGenerator Nat :=
  fun s => (toString s.engine, s)

/-- A relay around the runner `rn`. -/
def demoRelay (rn : ContainerRunner Nat) : Relay Nat :=
  { locked := false, Host := "localhost:5000", runner := rn,
    GenSessionID := demoGenerator, sessions := some (fun _ => none) }

/-- A Relay built as a struct literal that leaves the registry unset: its map is
the nil map. -/
def unallocatedRelay : Relay Nat :=
  { locked := false, Host := "", runner := countingRunner 0,
    GenSessionID := demoGenerator, sessions := none }

/-- Externals whose `NewDockerRunner` rejects the empty endpoint and otherwise
connects (one step of the engine) and hands out a counting runner. -/
def demoExternals : Externals Nat :=
  { DefaultSessionGenerator := demoGenerator
    fakeRunner := countingRunner 0
    NewDockerRunner := fun socket _ _ s =>
      if socket = "" then (Except.error ⟨"invalid endpoint"⟩, s)
      else (Except.ok (countingRunner 0), { s with engine := s.engine + 1 }) }

/-- Options that name the endpoint `socket` and the address `host`, `port`. -/
def demoOptions (socket host port : String) : Options Nat :=
  { SessionGenerator := none
    Tcp := { Host := host, Port := port }
    Docker := { Organization := "", Socket := socket, CertPath := "/certs", Auth := none } }

/-! ## Theorems: the lifecycle methods -/

/-- C1. If `Pull(c)` returns an error `e`, `CreateContainer(ctx, c)` returns exactly
`e`, the store is the one `Pull` left, and the only call made is `Pull(c)`:
`Create` is not called. -/
theorem CreateContainer_pull_error {σ : Type} (r : Relay σ) (ctx : Context)
    (c : ContainerPtr) (w : World σ) (e : GoError) (s1 : Store σ)
    (hpull : r.runner.Pull c w.store = (some e, s1)) :
    CreateContainer r ctx c w
      = (some e, { store := s1, trace := w.trace ++ [Call.Pull c] }) := by
  simp [CreateContainer, callPull, World.record, hpull]

/-- Witness of C1: a runner whose `Pull` fails with "no such image". -/
theorem CreateContainer_pull_error_witness :
    CreateContainer (demoRelay pullFailingRunner) Context.background (some 1) demoWorld
      = (some ⟨"no such image"⟩,
          { store := { demoStore with engine := 1 }, trace := [Call.Pull (some 1)] }) :=
  CreateContainer_pull_error (demoRelay pullFailingRunner) Context.background (some 1)
    demoWorld ⟨"no such image"⟩ { demoStore with engine := 1 } rfl

/-- C2. If `Pull(c)` succeeds, `CreateContainer(ctx, c)` calls `Create(c)` once, after
`Pull(c)`, with the same pointer and on the store `Pull` left; it returns what
`Create` returned and leaves the store `Create` left; the calls made are exactly
`Pull(c)` then `Create(c)`, also when `Create` fails. -/
theorem CreateContainer_pull_ok {σ : Type} (r : Relay σ) (ctx : Context)
    (c : ContainerPtr) (w : World σ) (s1 : Store σ)
    (hpull : r.runner.Pull c w.store = (none, s1)) :
    CreateContainer r ctx c w
      = ((r.runner.Create c s1).1,
          { store := (r.runner.Create c s1).2,
            trace := w.trace ++ [Call.Pull c, Call.Create c] }) := by
  simp [CreateContainer, callPull, callCreate, World.record, hpull]

/-- Witness of C2: a runner whose every method succeeds. -/
theorem CreateContainer_pull_ok_witness :
    CreateContainer (demoRelay (countingRunner 0)) Context.background (some 1) demoWorld
      = (none, { store := { demoStore with engine := 2 },
                 trace := [Call.Pull (some 1), Call.Create (some 1)] }) :=
  CreateContainer_pull_ok (demoRelay (countingRunner 0)) Context.background (some 1)
    demoWorld { demoStore with engine := 1 } rfl

/-- C5. `WaitContainer(ctx, name)` makes the one call `Wait(name)` and returns the
pair it returned; when that pair is `(n, nil)`, whatever `n` is, the result is
`(n, nil)`. -/
theorem WaitContainer_returns_backend_result {σ : Type} (r : Relay σ) (ctx : Context)
    (name : String) (w : World σ) :
    WaitContainer r ctx name w
        = ((r.runner.Wait name w.store).1,
            { store := (r.runner.Wait name w.store).2,
              trace := w.trace ++ [Call.Wait name] })
      ∧ ∀ (n : Int) (s1 : Store σ), r.runner.Wait name w.store = ((n, none), s1) →
          (WaitContainer r ctx name w).1 = (n, none) := by
  refine ⟨rfl, ?_⟩
  intro n s1 h
  simp [WaitContainer, callWait, h]

/-- Witness of C5: exit code 137 comes back as `(137, nil)`. -/
theorem WaitContainer_returns_backend_result_witness :
    (WaitContainer (demoRelay (countingRunner 137)) Context.background "job-1" demoWorld).1
      = (137, none) :=
  (WaitContainer_returns_backend_result (demoRelay (countingRunner 137)) Context.background
    "job-1" demoWorld).2 137 { demoStore with engine := 1 } rfl

/-- C10. `StartContainer(ctx, name)` makes exactly the call `Start(name)` and
`AttachToContainer(ctx, name, in, out)` exactly the call `Attach(name, in, out)`;
each returns what that call returned and leaves the store that call left. -/
theorem Start_Attach_pass_through {σ : Type} (r : Relay σ) (ctx : Context)
    (name : String) (input : Reader) (output : Writer) (w : World σ) :
    StartContainer r ctx name w
        = ((r.runner.Start name w.store).1,
            { store := (r.runner.Start name w.store).2,
              trace := w.trace ++ [Call.Start name] })
      ∧ AttachToContainer r ctx name input output w
        = ((r.runner.Attach name input output w.store).1,
            { store := (r.runner.Attach name input output w.store).2,
              trace := w.trace ++ [Call.Attach name input output] }) :=
  ⟨rfl, rfl⟩

/-! ## Theorems: the constructor -/

/-- With the socket "fake", `New` returns at once, around the fake runner. -/
lemma New_fake {σ : Type} (ext : Externals σ) (o : Options σ) (w : World σ)
    (h : o.Docker.Socket = "fake") :
    ∃ r, New ext o w = (Outcome.returned r, w) ∧ r.runner = ext.fakeRunner
      ∧ r.Host = Join [o.Tcp.Host, o.Tcp.Port] ":" ∧ r.locked = false
      ∧ r.sessions = some (fun _ => none) := by
  simp [New, h]

/-- With any other socket, the world after `New` is the one the call of
`NewDockerRunner` left. -/
lemma New_real_world {σ : Type} (ext : Externals σ) (o : Options σ) (w : World σ)
    (h : o.Docker.Socket ≠ "fake") :
    (New ext o w).2
      = w.record (ext.NewDockerRunner o.Docker.Socket o.Docker.CertPath o.Docker.Auth
          w.store).2 (Call.NewDockerRunner o.Docker.Socket o.Docker.CertPath o.Docker.Auth) := by
  simp only [New, h, if_false, callNewDockerRunner]
  cases (ext.NewDockerRunner o.Docker.Socket o.Docker.CertPath o.Docker.Auth w.store).1 <;> rfl

/-- A relay that `New` returns has a free mutex, an empty registry and the joined host. -/
lemma New_returned {σ : Type} (ext : Externals σ) (o : Options σ) (w w1 : World σ)
    (r : Relay σ) (h : New ext o w = (Outcome.returned r, w1)) :
    r.locked = false ∧ r.sessions = some (fun _ => none)
      ∧ r.Host = Join [o.Tcp.Host, o.Tcp.Port] ":" := by
  by_cases hs : o.Docker.Socket = "fake"
  · simp only [New, hs, if_true, Prod.mk.injEq, Outcome.returned.injEq] at h
    obtain ⟨rfl, -⟩ := h
    exact ⟨rfl, rfl, rfl⟩
  · rcases hc : callNewDockerRunner ext o.Docker.Socket o.Docker.CertPath o.Docker.Auth w
      with ⟨_ | rn, w2⟩
    · simp [New, hs, hc] at h
    · simp only [New, hs, hc, if_false, Prod.mk.injEq, Outcome.returned.injEq] at h
      obtain ⟨rfl, -⟩ := h
      exact ⟨rfl, rfl, rfl⟩

/-- Joining two strings writes the separator once, between them. -/
lemma Join_pair (a b sep : String) : Join [a, b] sep = a ++ sep ++ b := rfl

/-- C6, as the code has it. When the socket is not "fake" and `NewDockerRunner`
fails with `e`, `New` makes that one call and panics with `e`: it returns no
Relay and no error value. -/
theorem New_panics_on_constructor_error {σ : Type} (ext : Externals σ) (o : Options σ)
    (w : World σ) (e : GoError) (s1 : Store σ)
    (hs : o.Docker.Socket ≠ "fake")
    (hf : ext.NewDockerRunner o.Docker.Socket o.Docker.CertPath o.Docker.Auth w.store
            = (Except.error e, s1)) :
    New ext o w
      = (Outcome.panicked e,
          { store := s1,
            trace := w.trace ++
              [Call.NewDockerRunner o.Docker.Socket o.Docker.CertPath o.Docker.Auth] }) := by
  simp [New, hs, callNewDockerRunner, hf, World.record]

/-- Witness of C6 as amended: the empty endpoint is rejected and `New` panics. -/
theorem New_panics_on_constructor_error_witness :
    New demoExternals (demoOptions "" "localhost" "5000") demoWorld
      = (Outcome.panicked ⟨"invalid endpoint"⟩,
          { store := demoStore, trace := [Call.NewDockerRunner "" "/certs" none] }) :=
  New_panics_on_constructor_error demoExternals (demoOptions "" "localhost" "5000")
    demoWorld ⟨"invalid endpoint"⟩ demoStore (by decide) rfl

/-- Counterexample to C6 as stated: the socket is not "fake", `NewDockerRunner`
fails, and `New` does not return: it panics with the constructor's error. -/
theorem New_constructor_error_aborts :
    (demoOptions "" "localhost" "5000").Docker.Socket ≠ "fake"
      ∧ (demoExternals.NewDockerRunner "" "/certs" none demoWorld.store).1
          = Except.error ⟨"invalid endpoint"⟩
      ∧ (New demoExternals (demoOptions "" "localhost" "5000") demoWorld).1
          = Outcome.panicked ⟨"invalid endpoint"⟩
      ∧ ∀ r, (New demoExternals (demoOptions "" "localhost" "5000") demoWorld).1
          ≠ Outcome.returned r := by
  refine ⟨by decide, rfl, rfl, ?_⟩
  intro r h
  have h2 : (New demoExternals (demoOptions "" "localhost" "5000") demoWorld).1
      = Outcome.panicked ⟨"invalid endpoint"⟩ := rfl
  rw [h2] at h
  cases h

/-- C7. `New` selects the fake backend (returns a Relay around the fake runner
without any call of `NewDockerRunner`, the world untouched) exactly when
`Docker.Socket` is the string "fake"; in that case it returns whatever `CertPath`,
`Auth` and `NewDockerRunner` are. For every other socket, the empty one included,
it makes exactly one call `NewDockerRunner(Socket, CertPath, Auth)`, and the
runner of a returned Relay is the one that call produced. -/
theorem New_backend_selection {σ : Type} (ext : Externals σ) (o : Options σ)
    (w : World σ) :
    ((∃ r, New ext o w = (Outcome.returned r, w) ∧ r.runner = ext.fakeRunner)
        ↔ o.Docker.Socket = "fake")
      ∧ (o.Docker.Socket = "fake" → (New ext o w).2.trace = w.trace)
      ∧ (o.Docker.Socket ≠ "fake" →
          (New ext o w).2
              = { store := (ext.NewDockerRunner o.Docker.Socket o.Docker.CertPath
                    o.Docker.Auth w.store).2,
                  trace := w.trace ++
                    [Call.NewDockerRunner o.Docker.Socket o.Docker.CertPath o.Docker.Auth] }
            ∧ ∀ rn, (ext.NewDockerRunner o.Docker.Socket o.Docker.CertPath o.Docker.Auth
                  w.store).1 = Except.ok rn →
                ∃ r, (New ext o w).1 = Outcome.returned r ∧ r.runner = rn) := by
  refine ⟨⟨?_, ?_⟩, ?_, ?_⟩
  · rintro ⟨r, hr, -⟩
    by_contra hs
    have hw := New_real_world ext o w hs
    rw [hr] at hw
    have ht := congrArg World.trace hw
    simp [World.record] at ht
  · intro hs
    obtain ⟨r, hr, hrun, -⟩ := New_fake ext o w hs
    exact ⟨r, hr, hrun⟩
  · intro hs
    obtain ⟨r, hr, -⟩ := New_fake ext o w hs
    rw [hr]
  · intro hs
    refine ⟨New_real_world ext o w hs, ?_⟩
    intro rn hrn
    simp [New, hs, callNewDockerRunner, hrn]

/-- Witness of C7: the socket "fake" makes no call, the socket "" makes one. -/
theorem New_backend_selection_witness :
    (New demoExternals (demoOptions "fake" "localhost" "5000") demoWorld).2.trace = []
      ∧ (New demoExternals (demoOptions "" "localhost" "5000") demoWorld).2.trace
          = [Call.NewDockerRunner "" "/certs" none] :=
  ⟨(New_backend_selection demoExternals (demoOptions "fake" "localhost" "5000")
      demoWorld).2.1 rfl,
    congrArg World.trace
      ((New_backend_selection demoExternals (demoOptions "" "localhost" "5000")
        demoWorld).2.2 (by decide)).1⟩

/-- C9. A Relay that `New` returns has `Host` equal to the configured host, one
colon, and the configured port, neither of them changed; it is one character
longer than the two together, and it is ":" when both are empty. -/
theorem New_Host {σ : Type} (ext : Externals σ) (o : Options σ) (w w1 : World σ)
    (r : Relay σ) (h : New ext o w = (Outcome.returned r, w1)) :
    r.Host = o.Tcp.Host ++ ":" ++ o.Tcp.Port
      ∧ r.Host.length = o.Tcp.Host.length + 1 + o.Tcp.Port.length
      ∧ (o.Tcp.Host = "" → o.Tcp.Port = "" → r.Host = ":") := by
  obtain ⟨-, -, hh⟩ := New_returned ext o w w1 r h
  rw [Join_pair] at hh
  refine ⟨hh, ?_, ?_⟩
  · rw [hh]
    simp only [String.length_append]
    rfl
  · intro h1 h2
    rw [hh, h1, h2]
    rfl

/-- Witness of C9: host "localhost" and port "5000" give "localhost:5000". -/
theorem New_Host_witness :
    (demoRelay (countingRunner 0)).Host = "localhost" ++ ":" ++ "5000" :=
  (New_Host demoExternals (demoOptions "fake" "localhost" "5000") demoWorld demoWorld
    (demoRelay (countingRunner 0)) rfl).1

/-! ## Theorems: the session registry -/

/-- Setting an entry leaves the mutex, the host, the runner and the generator alone. -/
lemma Relay.put_fields {σ : Type} (r : Relay σ) (id : String) (c : ContainerPtr) :
    (r.put id c).locked = r.locked ∧ (r.put id c).Host = r.Host
      ∧ (r.put id c).runner = r.runner
      ∧ (r.put id c).GenSessionID = r.GenSessionID :=
  ⟨rfl, rfl, rfl, rfl⟩

/-- After setting an entry the map is allocated. -/
lemma Relay.put_allocated {σ : Type} (r : Relay σ) (id : String) (c : ContainerPtr) :
    (r.put id c).sessions.isSome = true := rfl

/-- Reading after setting an entry: the new entry at `id`, the old one elsewhere. -/
lemma Relay.lookup_put {σ : Type} (r : Relay σ) (id : String) (c : ContainerPtr)
    (k : String) : (r.put id c).lookup k = if k = id then some c else r.lookup k := rfl

/-- On a free mutex and an allocated map `SetContainerSession` returns, and the
relay it leaves is the one with the entry set, the mutex free again. -/
lemma SetContainerSession_free {σ : Type} (r : Relay σ) (id : String) (c : ContainerPtr)
    (hfree : r.locked = false) (halloc : r.sessions.isSome = true) :
    SetContainerSession r id c = some (Outcome.returned (), r.put id c) := by
  obtain ⟨l, h, rn, g, ss⟩ := r
  simp only at hfree
  subst hfree
  cases ss with
  | none => simp at halloc
  | some m => rfl

/-- Two relays with the same fields are the same relay. -/
lemma Relay.eq_of_fields {σ : Type} (a b : Relay σ) (h1 : a.locked = b.locked)
    (h2 : a.Host = b.Host) (h3 : a.runner = b.runner)
    (h4 : a.GenSessionID = b.GenSessionID) (h5 : a.sessions = b.sessions) : a = b := by
  cases a
  cases b
  simp only at h1 h2 h3 h4 h5
  subst h1 h2 h3 h4 h5
  rfl

/-- Two allocated maps that read the same at every key are the same map. -/
lemma Relay.sessions_eq_of_lookup {σ : Type} (a b : Relay σ)
    (ha : a.sessions.isSome = true) (hb : b.sessions.isSome = true)
    (h : ∀ k, a.lookup k = b.lookup k) : a.sessions = b.sessions := by
  obtain ⟨_, _, _, _, sa⟩ := a
  obtain ⟨_, _, _, _, sb⟩ := b
  cases sa with
  | none => simp at ha
  | some ma =>
    cases sb with
    | none => simp at hb
    | some mb =>
      have hfun : ma = mb := funext h
      simp only [hfun]

/-- The assignments touch the registry only, and leave it allocated. -/
lemma assignAll_fields {σ : Type} (qs : List (String × ContainerPtr)) :
    ∀ r : Relay σ, r.sessions.isSome = true →
      (assignAll r qs).locked = r.locked ∧ (assignAll r qs).Host = r.Host
      ∧ (assignAll r qs).runner = r.runner
      ∧ (assignAll r qs).GenSessionID = r.GenSessionID
      ∧ (assignAll r qs).sessions.isSome = true := by
  induction qs with
  | nil => intro r h; exact ⟨rfl, rfl, rfl, rfl, h⟩
  | cons p rest ih => intro r _; exact ih (r.put p.1 p.2) rfl

/-- A sequence of calls on a free mutex and an allocated map returns and leaves
the assignments made in turn. -/
lemma SetContainerSessions_free {σ : Type} (qs : List (String × ContainerPtr)) :
    ∀ r : Relay σ, r.locked = false → r.sessions.isSome = true →
      SetContainerSessions r qs = some (assignAll r qs) := by
  induction qs with
  | nil => intro r _ _; rfl
  | cons p rest ih =>
    intro r hfree halloc
    have h1 := SetContainerSession_free r p.1 p.2 hfree halloc
    have h2 := ih (r.put p.1 p.2) hfree rfl
    simp only [SetContainerSessions, h1, h2]
    rfl

/-- A key that no call names keeps its entry. -/
lemma assignAll_lookup_of_not_mem {σ : Type} (k : String)
    (qs : List (String × ContainerPtr)) :
    ∀ r : Relay σ, k ∉ qs.map Prod.fst → (assignAll r qs).lookup k = r.lookup k := by
  induction qs with
  | nil => intro r _; rfl
  | cons p rest ih =>
    intro r hk
    simp only [List.map_cons, List.mem_cons, not_or] at hk
    have h := ih (r.put p.1 p.2) hk.2
    simp only [assignAll, List.foldl_cons] at h ⊢
    rw [h, Relay.lookup_put]
    simp [hk.1]

/-- When the keys are pairwise distinct, every key ends with its own container. -/
lemma assignAll_lookup_of_mem {σ : Type} (k : String) (c : ContainerPtr)
    (qs : List (String × ContainerPtr)) :
    ∀ r : Relay σ, (qs.map Prod.fst).Nodup → (k, c) ∈ qs →
      (assignAll r qs).lookup k = some c := by
  induction qs with
  | nil => intro r _ h; simp at h
  | cons p rest ih =>
    intro r hnd hmem
    simp only [List.map_cons, List.nodup_cons] at hnd
    rcases List.mem_cons.mp hmem with heq | hrest
    · subst heq
      have h := assignAll_lookup_of_not_mem k rest (r.put k c) hnd.1
      simp only [assignAll, List.foldl_cons] at h ⊢
      rw [h, Relay.lookup_put]
      simp
    · have h := ih (r.put p.1 p.2) hnd.2 hrest
      simpa only [assignAll, List.foldl_cons] using h

/-- C3, as the code has it. On a Relay whose registry is an allocated map `m` (as
`New` builds it), for any session id (the empty one included) and any container
pointer (nil included), `SetContainerSession(id, c)` returns and leaves the map
`m` updated at `id`: looking up `id` gives `c`, present before or not, and every
other id gives what it gave before. The mutex is free again and nothing else in
the Relay changes. The mutex is free when the call takes it. -/
theorem SetContainerSession_updates_registry {σ : Type} (r : Relay σ) (id : String)
    (c : ContainerPtr) (m : String → Option ContainerPtr)
    (hfree : r.locked = false) (halloc : r.sessions = some m) :
    ∃ r1, SetContainerSession r id c = some (Outcome.returned (), r1)
      ∧ r1.sessions = some (Function.update m id (some c))
      ∧ r1.lookup id = some c
      ∧ (∀ k, k ≠ id → r1.lookup k = r.lookup k)
      ∧ r1.locked = false ∧ r1.Host = r.Host ∧ r1.runner = r.runner
      ∧ r1.GenSessionID = r.GenSessionID := by
  have hsome : r.sessions.isSome = true := by rw [halloc]; rfl
  refine ⟨r.put id c, SetContainerSession_free r id c hfree hsome, ?_, ?_, ?_, hfree,
    rfl, rfl, rfl⟩
  · simp only [Relay.put, Relay.lookup, halloc]
    congr 1
    funext k
    by_cases hk : k = id
    · subst hk
      simp
    · simp [hk]
  · simp [Relay.lookup_put]
  · intro k hk
    simp [Relay.lookup_put, hk]

/-- Witness of C3 as amended: on the registry `New` builds, the empty id and the
nil pointer are stored like any other. -/
theorem SetContainerSession_updates_registry_witness :
    ∃ r1, SetContainerSession (demoRelay (countingRunner 0)) "" none
          = some (Outcome.returned (), r1)
      ∧ r1.lookup "" = some none ∧ r1.lookup "a" = none := by
  obtain ⟨r1, h1, -, h3, h4, -⟩ :=
    SetContainerSession_updates_registry (demoRelay (countingRunner 0)) "" none
      (fun _ => none) rfl rfl
  exact ⟨r1, h1, h3, h4 "a" (by decide)⟩

/-- Counterexample to C3 as stated: on a Relay whose registry is the nil map, with
a free mutex, `SetContainerSession("a", c)` does not return: the assignment
panics, the deferred unlock runs, and a lookup of "a" still finds nothing. -/
theorem SetContainerSession_nil_map_panics :
    unallocatedRelay.locked = false
      ∧ SetContainerSession unallocatedRelay "a" (some 1)
          = some (Outcome.panicked ⟨"assignment to entry in nil map"⟩, unallocatedRelay)
      ∧ unallocatedRelay.lookup "a" = none :=
  ⟨rfl, rfl, rfl⟩

/-- C4. Starting from the Relay that `New` returns, calls of `SetContainerSession`
with pairwise distinct ids, made one after the other in any order `qs` of the list
`ps`, all return; the keys of the final registry are exactly the ids of `ps`, each
id maps to its own container, and the final Relay is the one the order `ps` gives. -/
theorem SetContainerSession_distinct_ids_any_order {σ : Type} (ext : Externals σ)
    (o : Options σ) (w w1 : World σ) (r0 : Relay σ)
    (hnew : New ext o w = (Outcome.returned r0, w1))
    (ps qs : List (String × ContainerPtr))
    (hdistinct : (ps.map Prod.fst).Nodup) (hperm : qs.Perm ps) :
    ∃ r, SetContainerSessions r0 qs = some r
      ∧ (∀ id, r.lookup id ≠ none ↔ id ∈ ps.map Prod.fst)
      ∧ (∀ id c, (id, c) ∈ ps → r.lookup id = some c)
      ∧ SetContainerSessions r0 ps = some r := by
  obtain ⟨hfree, hempty, -⟩ := New_returned ext o w w1 r0 hnew
  have halloc : r0.sessions.isSome = true := by rw [hempty]; rfl
  have hlook0 : ∀ id, r0.lookup id = none := by
    intro id
    simp [Relay.lookup, hempty]
  have hq : (qs.map Prod.fst).Nodup := (hperm.map Prod.fst).nodup_iff.mpr hdistinct
  have hkeys : ∀ id, id ∈ qs.map Prod.fst ↔ id ∈ ps.map Prod.fst :=
    fun id => (hperm.map Prod.fst).mem_iff
  have hmemq : ∀ id c, (id, c) ∈ ps → (assignAll r0 qs).lookup id = some c :=
    fun id c h => assignAll_lookup_of_mem id c qs r0 hq (hperm.mem_iff.mpr h)
  refine ⟨assignAll r0 qs, SetContainerSessions_free qs r0 hfree halloc, ?_, hmemq, ?_⟩
  · intro id
    constructor
    · intro hne
      by_contra hnot
      apply hne
      rw [assignAll_lookup_of_not_mem id qs r0 (fun h => hnot ((hkeys id).mp h)), hlook0]
    · intro hin
      obtain ⟨p, hp, rfl⟩ := List.mem_map.mp hin
      rw [hmemq p.1 p.2 hp]
      simp
  · rw [SetContainerSessions_free ps r0 hfree halloc]
    congr 1
    obtain ⟨a1, a2, a3, a4, a5⟩ := assignAll_fields ps r0 halloc
    obtain ⟨b1, b2, b3, b4, b5⟩ := assignAll_fields qs r0 halloc
    refine Relay.eq_of_fields _ _ (a1.trans b1.symm) (a2.trans b2.symm) (a3.trans b3.symm)
      (a4.trans b4.symm) (Relay.sessions_eq_of_lookup _ _ a5 b5 ?_)
    intro id
    by_cases hin : id ∈ ps.map Prod.fst
    · obtain ⟨p, hp, rfl⟩ := List.mem_map.mp hin
      rw [hmemq p.1 p.2 hp, assignAll_lookup_of_mem p.1 p.2 ps r0 hdistinct hp]
    · rw [assignAll_lookup_of_not_mem id ps r0 hin,
        assignAll_lookup_of_not_mem id qs r0 (fun h => hin ((hkeys id).mp h))]

/-- Witness of C4: two sessions, set in the order opposite to the list. -/
theorem SetContainerSession_distinct_ids_any_order_witness :
    ∃ r, SetContainerSessions (demoRelay (countingRunner 0)) [("b", some 2), ("a", some 1)]
          = some r
      ∧ r.lookup "a" = some (some 1) ∧ r.lookup "b" = some (some 2)
      ∧ SetContainerSessions (demoRelay (countingRunner 0)) [("a", some 1), ("b", some 2)]
          = some r := by
  obtain ⟨r, h1, -, h3, h4⟩ :=
    SetContainerSession_distinct_ids_any_order demoExternals
      (demoOptions "fake" "localhost" "5000") demoWorld demoWorld
      (demoRelay (countingRunner 0)) rfl
      [("a", some 1), ("b", some 2)] [("b", some 2), ("a", some 1)]
      (by decide) (List.Perm.swap _ _ _)
  exact ⟨r, h1, h3 "a" (some 1) (by simp), h3 "b" (some 2) (by simp), h4⟩

/-! ## Theorems: the context -/

/-- C8, as the code has it. No lifecycle method looks at its context: with a
canceled context, or one past its deadline, each makes the same calls and returns
the same result as with a live one, namely what the runner returned. -/
theorem lifecycle_ignores_context {σ : Type} (r : Relay σ) (ctx : Context)
    (c : ContainerPtr) (name : String) (input : Reader) (output : Writer) (w : World σ) :
    CreateContainer r ctx c w = CreateContainer r Context.background c w
      ∧ AttachToContainer r ctx name input output w
          = AttachToContainer r Context.background name input output w
      ∧ StartContainer r ctx name w = StartContainer r Context.background name w
      ∧ WaitContainer r ctx name w = WaitContainer r Context.background name w
      ∧ (StartContainer r ctx name w).1 = (r.runner.Start name w.store).1
      ∧ (WaitContainer r ctx name w).1 = (r.runner.Wait name w.store).1
      ∧ (AttachToContainer r ctx name input output w).1
          = (r.runner.Attach name input output w.store).1 :=
  ⟨rfl, rfl, rfl, rfl, rfl, rfl, rfl⟩

/-- Counterexample to C8 as stated: with a canceled context, and with one past its
deadline, every lifecycle method calls the runner and returns its success; none
returns the reason the context carries. -/
theorem canceled_context_not_reported :
    Context.canceled.Err = some ⟨"context canceled"⟩
      ∧ Context.deadlineExceeded.Err = some ⟨"context deadline exceeded"⟩
      ∧ CreateContainer (demoRelay (countingRunner 0)) Context.canceled (some 1) demoWorld
          = (none, { store := { demoStore with engine := 2 },
                     trace := [Call.Pull (some 1), Call.Create (some 1)] })
      ∧ AttachToContainer (demoRelay (countingRunner 0)) Context.canceled "job-1" ⟨0⟩ ⟨1⟩
            demoWorld
          = (none, { store := { demoStore with engine := 1 },
                     trace := [Call.Attach "job-1" ⟨0⟩ ⟨1⟩] })
      ∧ StartContainer (demoRelay (countingRunner 0)) Context.deadlineExceeded "job-1"
            demoWorld
          = (none, { store := { demoStore with engine := 1 },
                     trace := [Call.Start "job-1"] })
      ∧ WaitContainer (demoRelay (countingRunner 0)) Context.canceled "job-1" demoWorld
          = ((0, none), { store := { demoStore with engine := 1 },
                          trace := [Call.Wait "job-1"] }) :=
  ⟨rfl, rfl, rfl, rfl, rfl, rfl⟩

end Empire
